import Mathlib

/-!
Shallow embedding of the replacement-model coordination server of
`frankeinstein-ui` (files `src/server/replacementModelServer.ts`,
`src/server/startReplacementModelServer.ts`, the slider-persistence server
revision, and `sliderRepository.ts`), together with proofs settling the
specification claims about it.

JavaScript runtime values are modelled explicitly: a JS number is either a
finite rational or one of the non-finite sentinels (`NaN`, `Infinity`,
`-Infinity`); `null` and `undefined` collapse to a single constructor because
every check the embedded code performs (`x != null`, `typeof x`, `??`)
treats them identically.  Host-runtime primitives whose exact behaviour the
claims never depend on (the `Number(string)` parser, `new Date(...)`
construction, URL pathname extraction) are parameters of the embedding
(`JsEnv`), so every theorem is proved for all implementations of them.
-/

namespace ReplacementModel

/-- A JavaScript number: a finite rational or one of the non-finite values. -/
inductive JsNum where
  | fin (q : ℚ)
  | nan
  | posInfinity
  | negInfinity
deriving DecidableEq, Repr

/-- Model of `Number.isFinite`. -/
def jsIsFinite : JsNum → Bool
  | .fin _ => true
  | _ => false

/-- Model of the JS comparison `numeric <= 0` (false on `NaN`). -/
def jsLeZero : JsNum → Bool
  | .fin q => q ≤ 0
  | .nan => false
  | .posInfinity => false
  | .negInfinity => true

/-- A scalar JavaScript value as it can appear in a decoded request field.
`vNull` stands for both `null` and `undefined` (an absent field): every
check performed by the embedded code (`!= null`, `typeof`, `??`) treats the
two identically.  `vDate` models a `Date` instance whose `valueOf()` is the
given epoch value (`none` for an invalid date). -/
inductive JsVal where
  | vNull
  | vBool (b : Bool)
  | vNum (n : JsNum)
  | vStr (s : String)
  | vDate (epochMs : Option Int)
deriving DecidableEq, Repr

/-- The named fields the server ever destructures from a decoded JSON object.
Fields the sender did not supply are `vNull` (JS `undefined`). -/
structure JsObj where
  modelPath : JsVal := .vNull
  scale : JsVal := .vNull
  rotation : JsVal := .vNull
  elevation : JsVal := .vNull
  visible : JsVal := .vNull
  cleared : JsVal := .vNull
  sessionId : JsVal := .vNull
  questionId : JsVal := .vNull
  question : JsVal := .vNull
  prompt : JsVal := .vNull
  questionText : JsVal := .vNull
  value : JsVal := .vNull
  recordedAt : JsVal := .vNull
  submittedAt : JsVal := .vNull
deriving DecidableEq, Repr

/-- A decoded JSON payload: either a non-object value (including `null`),
or an object, of which only the destructured fields are modelled. -/
inductive JsInput where
  | prim (v : JsVal)
  | obj (o : JsObj)
deriving DecidableEq, Repr

/-- Host-runtime primitives the server calls but whose exact behaviour no
claim depends on: they are quantified over in every theorem. -/
structure JsEnv where
  /-- `Number(s)` for a string argument. -/
  parseNumber : String → JsNum
  /-- `new Date(n).valueOf()` for a number, `none` when the date is invalid. -/
  dateOfNum : JsNum → Option Int
  /-- `new Date(s).valueOf()` for a string, `none` when the date is invalid. -/
  dateOfStr : String → Option Int
  /-- `new URL(input, base).pathname`. -/
  pathnameOf : String → String

/-- A concrete `JsEnv` used to evaluate witnesses (no witness input exercises
the parsing primitives, so trivial implementations suffice). -/
def defaultEnv : JsEnv where
  parseNumber := fun _ => .nan
  dateOfNum := fun _ => none
  dateOfStr := fun _ => none
  pathnameOf := fun s => s

/-- interface ReplacementModelOverrides: all six fields optional. -/
structure Overrides where
  modelPath : Option String := none
  scale : Option JsNum := none
  rotation : Option JsNum := none
  elevation : Option JsNum := none
  visible : Option Bool := none
  cleared : Option Bool := none
deriving DecidableEq, Repr

/-- The canonical cleared override value set by `clearOverride`. -/
def canonicalCleared : Overrides :=
  { cleared := some true, visible := some false }

/-- `Object.keys(overrides).length === 0` for a normalized override record. -/
def isEmptyOverrides (o : Overrides) : Bool :=
  o.modelPath.isNone && o.scale.isNone && o.rotation.isNone &&
    o.elevation.isNone && o.visible.isNone && o.cleared.isNone

/-- Embeds `isClearedOverride`: `cleared === true`, or no
modelPath/scale/rotation/elevation and `visible === false`. -/
def isClearedOverride : Option Overrides → Bool
  | none => false
  | some v =>
    if v.cleared = some true then true
    else
      v.modelPath.isNone && v.scale.isNone && v.rotation.isNone &&
        v.elevation.isNone && (v.visible = some false)

/-- Embeds `clearOverride`: no-op when the current value is already cleared,
otherwise set the canonical cleared shape.  The second component records
whether `broadcastUpdate` was invoked. -/
def clearOverride (s : Option Overrides) : Option Overrides × Bool :=
  if isClearedOverride s then (s, false)
  else (some canonicalCleared, true)

/-- One field of the object spread `{...base, ...partial}`: the partial's
field wins when present. -/
def jsSpread {α : Type} (base p : Option α) : Option α :=
  match p with
  | some v => some v
  | none => base

/-- The object spread `{...(override ?? {}), ...overrides}`. -/
def mergeOverrides (base ov : Overrides) : Overrides where
  modelPath := jsSpread base.modelPath ov.modelPath
  scale := jsSpread base.scale ov.scale
  rotation := jsSpread base.rotation ov.rotation
  elevation := jsSpread base.elevation ov.elevation
  visible := jsSpread base.visible ov.visible
  cleared := jsSpread base.cleared ov.cleared

/-- The non-clear `set-model` / POST merge path (identical in `applyCommand`
and `handleOverrideRequest`): shallow-merge, apply the visibility
auto-restore / strip rules, and drop a `cleared` flag the partial did not
set. -/
def applyMerge (s : Option Overrides) (ov : Overrides) : Overrides :=
  let previousVisible : Option Bool :=
    match s with
    | none => none
    | some o => o.visible
  let base : Overrides :=
    match s with
    | none => {}
    | some o => o
  let merged := mergeOverrides base ov
  let merged2 :=
    if ov.modelPath.isSome ∧ ov.modelPath ≠ some "clear" ∧ ov.visible = none then
      { merged with visible := some true }
    else if ov.visible = none ∧ previousVisible = some false then
      { merged with visible := none }
    else merged
  if ov.cleared = none then { merged2 with cleared := none } else merged2

/-- Model of `String.prototype.trim`: drop whitespace from both ends.
(Structural recursion over the character list, so that it evaluates inside
the kernel.) -/
def jsTrim (s : String) : String :=
  ⟨((s.data.dropWhile Char.isWhitespace).reverse.dropWhile
      Char.isWhitespace).reverse⟩

/-- Embeds `coerceNumber`: a number is returned as-is; a string is parsed
with `Number(...)` and rejected when the result is `NaN`; anything else
throws. -/
def coerceNumber (env : JsEnv) : JsVal → Except String JsNum
  | .vNum n => .ok n
  | .vStr s =>
    match env.parseNumber s with
    | .nan => .error "Numeric field must be a number or numeric string"
    | n => .ok n
  | _ => .error "Numeric field must be a number or numeric string"

/-- The `modelPath` branch of `normalizeOverrides`. -/
def normModelPath : JsVal → Except String (Option String)
  | .vNull => .ok none
  | .vStr s =>
    if jsTrim s = "" then
      .error "modelPath must be a non-empty string when provided"
    else .ok (some s)
  | _ => .error "modelPath must be a non-empty string when provided"

/-- The `scale` branch of `normalizeOverrides`. -/
def normScale (env : JsEnv) : JsVal → Except String (Option JsNum)
  | .vNull => .ok none
  | v => do
    let n ← coerceNumber env v
    if !jsIsFinite n || jsLeZero n then
      .error "scale must be a positive number when provided"
    else .ok (some n)

/-- The `rotation` branch of `normalizeOverrides`. -/
def normRotation (env : JsEnv) : JsVal → Except String (Option JsNum)
  | .vNull => .ok none
  | v => do
    let n ← coerceNumber env v
    if !jsIsFinite n then
      .error "rotation must be a finite number when provided"
    else .ok (some n)

/-- The `elevation` branch of `normalizeOverrides`. -/
def normElevation (env : JsEnv) : JsVal → Except String (Option JsNum)
  | .vNull => .ok none
  | v => do
    let n ← coerceNumber env v
    if !jsIsFinite n then
      .error "elevation must be a finite number when provided"
    else .ok (some n)

/-- The `visible` branch of `normalizeOverrides`: booleans and the literal
strings are accepted, everything else throws. -/
def normVisible : JsVal → Except String (Option Bool)
  | .vNull => .ok none
  | .vBool b => .ok (some b)
  | .vStr s =>
    if s = "true" then .ok (some true)
    else if s = "false" then .ok (some false)
    else .error "visible must be a boolean value when provided"
  | _ => .error "visible must be a boolean value when provided"

/-- The `cleared` branch of `normalizeOverrides`: only `true` is retained;
an explicit `false` produces no field. -/
def normCleared : JsVal → Except String (Option Bool)
  | .vNull => .ok none
  | .vBool b => if b then .ok (some true) else .ok none
  | .vStr s =>
    if s = "true" then .ok (some true)
    else if s = "false" then .ok none
    else .error "cleared must be a boolean value when provided"
  | _ => .error "cleared must be a boolean value when provided"

/-- Embeds `normalizeOverrides`: reject non-objects, then validate each of
the six fields in source order, collecting the present ones. -/
def normalizeOverrides (env : JsEnv) : JsInput → Except String Overrides
  | .prim _ => .error "Override payload must be an object"
  | .obj p => do
    let mp ← normModelPath p.modelPath
    let sc ← normScale env p.scale
    let rot ← normRotation env p.rotation
    let el ← normElevation env p.elevation
    let vis ← normVisible p.visible
    let cl ← normCleared p.cleared
    .ok { modelPath := mp, scale := sc, rotation := rot, elevation := el,
          visible := vis, cleared := cl }

/-- interface SliderSubmission (server-side normalized form; `recordedAt`
is the epoch value of the normalized `Date`). -/
structure SliderSubmission where
  sessionId : String
  questionId : String
  questionText : Option String := none
  value : JsNum
  recordedAt : Option Int := none
deriving DecidableEq, Repr

/-- Embeds `normalizeDate`: a valid `Date` instance is returned as-is;
numbers and strings go through `new Date(...)` and must be valid. -/
def normalizeDate (env : JsEnv) : JsVal → Except String Int
  | .vDate (some t) => .ok t
  | .vNum n =>
    match env.dateOfNum n with
    | some t => .ok t
    | none => .error "recordedAt/submittedAt must be a valid date or timestamp"
  | .vStr s =>
    match env.dateOfStr s with
    | some t => .ok t
    | none => .error "recordedAt/submittedAt must be a valid date or timestamp"
  | _ => .error "recordedAt/submittedAt must be a valid date or timestamp"

/-- The JS `a ?? b`, restricted to the embedded scalar values. -/
def jsCoalesce (a b : JsVal) : JsVal :=
  match a with
  | .vNull => b
  | v => v

/-- Embeds `normalizeSliderSubmission`: required trimmed `sessionId` and
`questionId`, required coercible `value`, optional label from
`questionText ?? question ?? prompt` (stored untrimmed), optional timestamp
from `submittedAt ?? recordedAt`. -/
def normalizeSliderSubmission (env : JsEnv) :
    JsInput → Except String SliderSubmission
  | .prim _ => .error "Slider submission payload must be an object"
  | .obj p => do
    let sid ←
      match p.sessionId with
      | .vStr s =>
        if (jsTrim s).length = 0 then
          Except.error "sessionId must be a non-empty string"
        else Except.ok s
      | _ => Except.error "sessionId must be a non-empty string"
    let qid ←
      match p.questionId with
      | .vStr s =>
        if (jsTrim s).length = 0 then
          Except.error "questionId must be a non-empty string"
        else Except.ok s
      | _ => Except.error "questionId must be a non-empty string"
    if p.value = .vNull then
      Except.error "value must be provided"
    else do
      let v ← coerceNumber env p.value
      let base : SliderSubmission :=
        { sessionId := jsTrim sid, questionId := jsTrim qid, value := v }
      let withLabel ←
        match jsCoalesce p.questionText (jsCoalesce p.question p.prompt) with
        | .vNull => Except.ok base
        | .vStr s =>
          if (jsTrim s).length = 0 then
            Except.error "questionText must be a non-empty string when provided"
          else Except.ok { base with questionText := some s }
        | _ => Except.error "questionText must be a non-empty string when provided"
      match jsCoalesce p.submittedAt p.recordedAt with
      | .vNull => Except.ok withLabel
      | v => do
        let t ← normalizeDate env v
        Except.ok { withLabel with recordedAt := some t }

/-- One WebSocket connection as the broadcast loop sees it: its identity and
whether `client.readyState === client.OPEN`. -/
structure Client where
  id : ℕ
  readyStateOpen : Bool
deriving DecidableEq, Repr

/-- A server-to-client message (`ReplacementModelServerMessage`); equality of
modelled messages corresponds to equality of the serialized JSON by value. -/
inductive Msg where
  | modelUpdate (payload : Option Overrides)
  | errorMsg (message : String)
deriving DecidableEq, Repr

/-- Embeds `broadcastUpdate`: send one serialized `model-update` with the
current override to every open client.  Events are (client id, message)
pairs in client order. -/
def broadcastUpdate (clients : List Client) (s : Option Overrides) :
    List (ℕ × Msg) :=
  (clients.filter (fun c => c.readyStateOpen)).map
    (fun c => (c.id, Msg.modelUpdate s))

/-- The events emitted by a call to `clearOverride` (its internal
`broadcastUpdate` fires only when the state actually changed). -/
def clearEvents (clients : List Client) (s : Option Overrides) :
    List (ℕ × Msg) :=
  let r := clearOverride s
  if r.2 then broadcastUpdate clients r.1 else []

/-- The body of an HTTP JSON response, as far as the claims observe it. -/
inductive RespBody where
  | errorBody (message : String)
  | overrideBody (o : Option Overrides)
  | acceptedBody
deriving DecidableEq, Repr

/-- An HTTP response: status code plus optional JSON body (a bare
`respondJson(response, 204)` and the preflight response have no body). -/
structure HttpReply where
  status : ℕ
  body : Option RespBody := none
deriving DecidableEq, Repr

/-- `respondJson(response, status, ⟨error: message⟩)`. -/
def jsonError (status : ℕ) (message : String) : HttpReply :=
  { status := status, body := some (.errorBody message) }

/-- The observable outcome of one HTTP request: the reply, the resulting
override state, the WebSocket messages sent, and whether
`sliderRepository.saveSliderSubmission` was invoked. -/
structure HandlerResult where
  reply : HttpReply
  state : Option Overrides
  events : List (ℕ × Msg) := []
  didSave : Bool := false
deriving DecidableEq, Repr

/-- The POST branch of `handleOverrideRequest`: decode JSON, normalize,
short-circuit to clear, reject empty updates, otherwise merge and
broadcast.  `body = none` models a JSON.parse failure. -/
def handleOverridePost (env : JsEnv) (s : Option Overrides)
    (clients : List Client) (body : Option JsInput) : HandlerResult :=
  match body with
  | none =>
    { reply := { status := 400, body := some (.errorBody "Invalid JSON body") },
      state := s }
  | some input =>
    match normalizeOverrides env input with
    | .error e =>
      { reply := { status := 400, body := some (.errorBody e) }, state := s }
    | .ok ov =>
      if ov.modelPath = some "clear" ∨ ov.cleared = some true then
        { reply := { status := 204 }, state := (clearOverride s).1,
          events := clearEvents clients s }
      else if isEmptyOverrides ov then
        let msg := "At least one override field must be provided"
        { reply := { status := 400, body := some (.errorBody msg) },
          state := s }
      else
        let s' := some (applyMerge s ov)
        { reply := { status := 204 }, state := s',
          events := broadcastUpdate clients s' }

/-- Embeds `handleOverrideRequest` (the base-path routes GET / DELETE /
POST / 405). -/
def handleOverrideRequest (env : JsEnv) (s : Option Overrides)
    (clients : List Client) (method : String) (body : Option JsInput) :
    HandlerResult :=
  if method = "GET" then
    { reply := { status := 200, body := some (.overrideBody s) }, state := s }
  else if method = "DELETE" then
    { reply := { status := 204 }, state := (clearOverride s).1,
      events := clearEvents clients s }
  else if method = "POST" then
    handleOverridePost env s clients body
  else
    { reply := { status := 405, body := some (.errorBody "Unsupported method") },
      state := s }

/-- Embeds `handleSliderSubmission`: POST only, decode, normalize, 503 when
no repository is configured, otherwise attempt the save (`saveOutcome` is
the repository call's result) and answer 202 or 500. -/
def handleSliderSubmission (env : JsEnv) (s : Option Overrides)
    (repoConfigured : Bool) (saveOutcome : Except String Unit)
    (method : String) (body : Option JsInput) : HandlerResult :=
  if method ≠ "POST" then
    { reply := { status := 405, body := some (.errorBody "Unsupported method") },
      state := s }
  else
    match body with
    | none =>
      { reply := { status := 400, body := some (.errorBody "Invalid JSON body") },
        state := s }
    | some input =>
      match normalizeSliderSubmission env input with
      | .error e =>
        { reply := { status := 400, body := some (.errorBody e) }, state := s }
      | .ok _ =>
        if repoConfigured = false then
          let msg := "Slider submission storage not configured"
          { reply := { status := 503, body := some (.errorBody msg) },
            state := s }
        else
          match saveOutcome with
          | .error e =>
            { reply := { status := 500, body := some (.errorBody e) },
              state := s, didSave := true }
          | .ok _ =>
            { reply := { status := 202, body := some .acceptedBody },
              state := s, didSave := true }

/-- The WebSocket / base path `/replacement-model`. -/
def WS_PATH : String := "/replacement-model"

/-- The slider submission path `/replacement-model/slider-values`. -/
def SLIDER_PATH : String := WS_PATH ++ "/slider-values"

/-- Embeds `handleHttpRequest` (slider-persistence revision): missing URL →
404, OPTIONS → preflight 204, then dispatch on the parsed pathname, with
404 for any other path. -/
def handleHttpRequest (env : JsEnv) (s : Option Overrides)
    (clients : List Client) (method : String) (url : Option String)
    (body : Option JsInput) (repoConfigured : Bool)
    (saveOutcome : Except String Unit) : HandlerResult :=
  match url with
  | none =>
    { reply := { status := 404, body := some (.errorBody "Not found") },
      state := s }
  | some u =>
    if method = "OPTIONS" then
      { reply := { status := 204 }, state := s }
    else
      let pathname := env.pathnameOf u
      if pathname = WS_PATH then
        handleOverrideRequest env s clients method body
      else if pathname = SLIDER_PATH then
        handleSliderSubmission env s repoConfigured saveOutcome method body
      else
        { reply := { status := 404, body := some (.errorBody "Not found") },
          state := s }

/-- A parsed WebSocket command (`ReplacementModelCommand`), with the
`set-model` payload already normalized by `parseCommand`. -/
inductive Command where
  | setModel (payload : Overrides)
  | clearModel
  | getModel
deriving DecidableEq, Repr

/-- An incoming WebSocket frame after JSON decoding: undecodable data, a
decoded non-object, or a decoded object with its `type` and `payload`
fields. -/
inductive WsMessage where
  | undecodable
  | notObject
  | objMsg (msgType : JsVal) (payload : JsInput)
deriving DecidableEq, Repr

/-- Embeds `parseCommand`: dispatch on the `type` discriminator and
normalize the `set-model` payload. -/
def parseCommand (env : JsEnv) : WsMessage → Except String Command
  | .undecodable => .error "Invalid command payload"
  | .notObject => .error "Command payload must be an object"
  | .objMsg t payload =>
    if t = .vStr "set-model" then do
      let ov ← normalizeOverrides env payload
      .ok (.setModel ov)
    else if t = .vStr "clear-model" then .ok .clearModel
    else if t = .vStr "get-model" then .ok .getModel
    else .error "Unsupported command type"

/-- Embeds `applyCommand`: reject empty `set-model` payloads, short-circuit
the clear sentinels, otherwise merge and broadcast; `clear-model` clears;
`get-model` answers the requesting socket only. -/
def applyCommand (s : Option Overrides) (clients : List Client)
    (senderId : ℕ) :
    Command → Except String (Option Overrides × List (ℕ × Msg))
  | .setModel p =>
    if isEmptyOverrides p then
      .error "set-model requires at least one field"
    else if p.modelPath = some "clear" then
      .ok ((clearOverride s).1, clearEvents clients s)
    else if p.cleared = some true then
      .ok ((clearOverride s).1, clearEvents clients s)
    else
      let s' := some (applyMerge s p)
      .ok (s', broadcastUpdate clients s')
  | .clearModel => .ok ((clearOverride s).1, clearEvents clients s)
  | .getModel => .ok (s, [(senderId, Msg.modelUpdate s)])

/-- The socket `message` listener: parse and apply; any thrown error is
caught and sent back to the same socket as an `error` message. -/
def handleWsMessage (env : JsEnv) (s : Option Overrides)
    (clients : List Client) (senderId : ℕ) (msg : WsMessage) :
    Option Overrides × List (ℕ × Msg) :=
  match parseCommand env msg with
  | .error m => (s, [(senderId, Msg.errorMsg m)])
  | .ok cmd =>
    match applyCommand s clients senderId cmd with
    | .error m => (s, [(senderId, Msg.errorMsg m)])
    | .ok r => r

/-- The override states the running server can exhibit: `null` at process
start, then whatever the two transport entry points produce. -/
inductive Reachable : Option Overrides → Prop where
  | init : Reachable none
  | httpStep (env : JsEnv) (s : Option Overrides) (clients : List Client)
      (method : String) (url : Option String) (body : Option JsInput)
      (repoConfigured : Bool) (saveOutcome : Except String Unit) :
      Reachable s →
      Reachable (handleHttpRequest env s clients method url body repoConfigured
        saveOutcome).state
  | wsStep (env : JsEnv) (s : Option Overrides) (clients : List Client)
      (senderId : ℕ) (msg : WsMessage) :
      Reachable s →
      Reachable (handleWsMessage env s clients senderId msg).1

/-- Default for `SLIDER_STORAGE_RETRY_ATTEMPTS`. -/
def DEFAULT_RETRY_ATTEMPTS : ℕ := 5

/-- Default for `SLIDER_STORAGE_RETRY_DELAY_MS`. -/
def DEFAULT_RETRY_DELAY_MS : ℕ := 1000

/-- The retry loop of `initializeSliderRepository`, starting at attempt
number `attempt` with `remaining` attempts left.  Returns the repository of
the first successful construction (or `none` when every attempt failed —
the exception never escapes) together with the list of delays (in ms)
awaited between consecutive attempts. -/
def initFrom {α : Type} (ctor : ℕ → Except String α) (baseDelayMs : ℕ) :
    ℕ → ℕ → Option α × List ℕ
  | _, 0 => (none, [])
  | attempt, remaining + 1 =>
    match ctor attempt with
    | .ok repo => (some repo, [])
    | .error _ =>
      if remaining = 0 then (none, [])
      else
        let r := initFrom ctor baseDelayMs (attempt + 1) remaining
        (r.1, baseDelayMs * attempt :: r.2)

/-- Embeds `initializeSliderRepository`: up to `maxAttempts` construction
attempts starting at attempt 1, waiting `baseDelayMs * attempt` after each
failed non-final attempt. -/
def initializeSliderRepository {α : Type} (ctor : ℕ → Except String α)
    (maxAttempts baseDelayMs : ℕ) : Option α × List ℕ :=
  initFrom ctor baseDelayMs 1 maxAttempts

/-- A well-formed slider submission payload used by witnesses. -/
def validSliderPayload : JsObj :=
  { sessionId := .vStr "s", questionId := .vStr "q", value := .vNum (.fin 1) }

/-! ## Claim theorems -/

/-- Claim C1: for every current override state and every validated non-clear
non-empty update partial, the update shallow-merges the partial over the
existing override; a partial that sets a `modelPath` without explicitly
setting `visible` forces `visible` to `true`; otherwise a partial that does
not set `visible` while the previous override had `visible == false` leaves
no `visible` field at all; otherwise the explicit or inherited `visible`
value is kept. -/
theorem C1_update_merge_visibility (s : Option Overrides) (p : Overrides)
    (hne : isEmptyOverrides p = false) (hmp : p.modelPath ≠ some "clear")
    (hcl : p.cleared ≠ some true) :
    (applyMerge s p).modelPath = jsSpread (s.getD {}).modelPath p.modelPath ∧
    (applyMerge s p).scale = jsSpread (s.getD {}).scale p.scale ∧
    (applyMerge s p).rotation = jsSpread (s.getD {}).rotation p.rotation ∧
    (applyMerge s p).elevation = jsSpread (s.getD {}).elevation p.elevation ∧
    (p.modelPath.isSome → p.visible = none →
      (applyMerge s p).visible = some true) ∧
    (p.modelPath = none → p.visible = none → (s.getD {}).visible = some false →
      (applyMerge s p).visible = none) ∧
    (∀ b, p.visible = some b → (applyMerge s p).visible = some b) ∧
    (p.modelPath = none → p.visible = none → (s.getD {}).visible ≠ some false →
      (applyMerge s p).visible = (s.getD {}).visible) := by
  obtain ⟨mp, sc, rot, el, vis, cl⟩ := p
  cases s with
  | none =>
    cases mp <;> rcases vis with _ | (_ | _) <;> rcases cl with _ | (_ | _) <;>
      simp_all [applyMerge, mergeOverrides, jsSpread, Option.getD]
  | some o =>
    obtain ⟨omp, osc, orot, oel, ovis, ocl⟩ := o
    cases mp <;> rcases vis with _ | (_ | _) <;> rcases cl with _ | (_ | _) <;>
      rcases ovis with _ | (_ | _) <;>
      simp_all [applyMerge, mergeOverrides, jsSpread, Option.getD]

/-- Witness for C1 at the claim's own examples: from
`(modelPath a, visible false)`, applying `(modelPath b)` restores
`visible = true`, while applying `(scale 2)` leaves no `visible` field. -/
theorem C1_update_merge_visibility_witness :
    (applyMerge (some { modelPath := some "a", visible := some false })
      { modelPath := some "b" }).visible = some true ∧
    (applyMerge (some { modelPath := some "a", visible := some false })
      { scale := some (.fin 2) }).visible = none :=
  ⟨(C1_update_merge_visibility (some { modelPath := some "a", visible := some false })
      { modelPath := some "b" } (by decide) (by decide)
      (by decide)).2.2.2.2.1 (by decide) rfl,
   (C1_update_merge_visibility (some { modelPath := some "a", visible := some false })
      { scale := some (.fin 2) } (by decide) (by decide)
      (by decide)).2.2.2.2.2.1 rfl rfl rfl⟩

/-! ### The cleared-flag invariant -/

/-- Destructuring a successful `Except` bind. -/
theorem except_bind_ok {α β : Type} {x : Except String α}
    {f : α → Except String β} {b : β} (h : (x >>= f) = .ok b) :
    ∃ a, x = .ok a ∧ f a = .ok b := by
  cases x with
  | error e => simp [Bind.bind, Except.bind] at h
  | ok a => exact ⟨a, rfl, by simpa [Bind.bind, Except.bind] using h⟩

/-- Normalization retains `cleared` only as `true`: an explicit `false`
produces no field. -/
theorem normCleared_ok {v : JsVal} {c : Option Bool}
    (h : normCleared v = .ok c) : c = none ∨ c = some true := by
  cases v with
  | vNull => simp [normCleared] at h; simp [← h]
  | vBool b => cases b <;> simp [normCleared] at h <;> simp [← h]
  | vStr s =>
    by_cases h1 : s = "true" <;> by_cases h2 : s = "false" <;>
      simp [normCleared, h1, h2] at h <;> simp [← h]
  | vNum n => simp [normCleared] at h
  | vDate t => simp [normCleared] at h

/-- A normalized override partial never carries `cleared = false`. -/
theorem normalizeOverrides_cleared {env : JsEnv} {input : JsInput}
    {ov : Overrides} (h : normalizeOverrides env input = .ok ov) :
    ov.cleared = none ∨ ov.cleared = some true := by
  cases input with
  | prim v => simp [normalizeOverrides] at h
  | obj p =>
    simp only [normalizeOverrides] at h
    obtain ⟨mp, _, h⟩ := except_bind_ok h
    obtain ⟨sc, _, h⟩ := except_bind_ok h
    obtain ⟨rot, _, h⟩ := except_bind_ok h
    obtain ⟨el, _, h⟩ := except_bind_ok h
    obtain ⟨vis, _, h⟩ := except_bind_ok h
    obtain ⟨cl, hcl, h⟩ := except_bind_ok h
    obtain rfl : ov = ⟨mp, sc, rot, el, vis, cl⟩ := by
      cases h
      rfl
    exact normCleared_ok hcl

/-- A merge whose partial does not set `cleared` drops any prior `cleared`
flag. -/
theorem applyMerge_cleared_none {ov : Overrides} (h : ov.cleared = none)
    (s : Option Overrides) : (applyMerge s ov).cleared = none := by
  simp [applyMerge, h]

/-- `clearOverride` either keeps the state or installs the canonical
cleared shape. -/
theorem clearOverride_fst (s : Option Overrides) :
    (clearOverride s).1 = s ∨ (clearOverride s).1 = some canonicalCleared := by
  unfold clearOverride
  split <;> simp

/-- The cleared-flag invariant: a `cleared` field is present only on the
canonical cleared shape. -/
def ClearedInv (s : Option Overrides) : Prop :=
  ∀ o, s = some o → o.cleared ≠ none → o = canonicalCleared

theorem clearedInv_none : ClearedInv none := by
  intro o h
  cases h

theorem clearedInv_clear {s : Option Overrides} (h : ClearedInv s) :
    ClearedInv (clearOverride s).1 := by
  rcases clearOverride_fst s with hc | hc <;> rw [hc]
  · exact h
  · intro o ho _
    cases ho
    rfl

theorem clearedInv_merge {ov : Overrides} (hcl : ov.cleared = none)
    (s : Option Overrides) : ClearedInv (some (applyMerge s ov)) := by
  intro o ho hne
  cases ho
  exact absurd (applyMerge_cleared_none hcl s) hne

theorem clearedInv_handleOverridePost (env : JsEnv) (s : Option Overrides)
    (clients : List Client) (body : Option JsInput) (h : ClearedInv s) :
    ClearedInv (handleOverridePost env s clients body).state := by
  cases body with
  | none => exact h
  | some input =>
    cases hn : normalizeOverrides env input with
    | error e =>
      simp only [handleOverridePost, hn]
      exact h
    | ok ov =>
      by_cases hc : ov.modelPath = some "clear" ∨ ov.cleared = some true
      · simp only [handleOverridePost, hn, hc, if_true]
        exact clearedInv_clear h
      · by_cases he : isEmptyOverrides ov
        · simp only [handleOverridePost, hn, hc, he, if_false, if_true]
          exact h
        · simp only [handleOverridePost, hn, hc, he, if_false]
          rcases normalizeOverrides_cleared hn with h0 | h0
          · exact clearedInv_merge h0 s
          · exact absurd (Or.inr h0) hc

theorem clearedInv_handleOverrideRequest (env : JsEnv) (s : Option Overrides)
    (clients : List Client) (method : String) (body : Option JsInput)
    (h : ClearedInv s) :
    ClearedInv (handleOverrideRequest env s clients method body).state := by
  unfold handleOverrideRequest
  split_ifs
  · exact h
  · exact clearedInv_clear h
  · exact clearedInv_handleOverridePost env s clients body h
  · exact h

theorem handleSliderSubmission_state (env : JsEnv) (s : Option Overrides)
    (repoConfigured : Bool) (saveOutcome : Except String Unit)
    (method : String) (body : Option JsInput) :
    (handleSliderSubmission env s repoConfigured saveOutcome method body).state
      = s := by
  unfold handleSliderSubmission
  repeat' split
  all_goals rfl

theorem clearedInv_handleHttpRequest (env : JsEnv) (s : Option Overrides)
    (clients : List Client) (method : String) (url : Option String)
    (body : Option JsInput) (repoConfigured : Bool)
    (saveOutcome : Except String Unit) (h : ClearedInv s) :
    ClearedInv (handleHttpRequest env s clients method url body repoConfigured
      saveOutcome).state := by
  cases url with
  | none => exact h
  | some u =>
    by_cases hm : method = "OPTIONS"
    · simp only [handleHttpRequest, hm, if_true]
      exact h
    · by_cases hp1 : env.pathnameOf u = WS_PATH
      · simp only [handleHttpRequest, hm, hp1, if_false, if_true, ite_true,
          ite_false]
        exact clearedInv_handleOverrideRequest env s clients method body h
      · by_cases hp2 : env.pathnameOf u = SLIDER_PATH
        · simp only [handleHttpRequest, hm, hp1, hp2, if_false, if_true,
            ite_true, ite_false]
          rw [if_neg (show ¬(SLIDER_PATH = WS_PATH) by decide)]
          rw [handleSliderSubmission_state]
          exact h
        · simp only [handleHttpRequest, hm, hp1, hp2, if_false, ite_false]
          exact h

theorem parseCommand_ok_setModel {env : JsEnv} {msg : WsMessage}
    {p : Overrides} (h : parseCommand env msg = .ok (.setModel p)) :
    ∃ input, normalizeOverrides env input = .ok p := by
  cases msg with
  | undecodable => simp [parseCommand] at h
  | notObject => simp [parseCommand] at h
  | objMsg t payload =>
    by_cases h1 : t = .vStr "set-model"
    · simp only [parseCommand, h1, if_true] at h
      obtain ⟨ov, hov, hrest⟩ := except_bind_ok h
      refine ⟨payload, ?_⟩
      obtain rfl : ov = p := by
        cases hrest
        rfl
      exact hov
    · by_cases h2 : t = .vStr "clear-model"
      · simp only [parseCommand, h1, h2, if_false, if_true, ite_true,
          ite_false] at h
        cases h
      · by_cases h3 : t = .vStr "get-model"
        · simp only [parseCommand, h1, h2, h3, if_false, if_true, ite_true,
            ite_false] at h
          cases h
        · simp only [parseCommand, h1, h2, h3, if_false, ite_false] at h
          cases h

theorem clearedInv_handleWsMessage (env : JsEnv) (s : Option Overrides)
    (clients : List Client) (senderId : ℕ) (msg : WsMessage)
    (h : ClearedInv s) :
    ClearedInv (handleWsMessage env s clients senderId msg).1 := by
  unfold handleWsMessage
  cases hpc : parseCommand env msg with
  | error m => exact h
  | ok cmd =>
    cases cmd with
    | setModel p =>
      obtain ⟨input, hin⟩ := parseCommand_ok_setModel hpc
      by_cases he : isEmptyOverrides p
      · simp only [applyCommand, he, if_pos]
        exact h
      · by_cases hmp : p.modelPath = some "clear"
        · simp only [applyCommand, he, hmp, if_neg, if_pos, not_false_iff]
          exact clearedInv_clear h
        · by_cases hcl : p.cleared = some true
          · simp only [applyCommand, he, hmp, hcl, if_neg, if_pos,
              not_false_iff]
            exact clearedInv_clear h
          · simp only [applyCommand, he, hmp, hcl, if_neg, not_false_iff]
            rcases normalizeOverrides_cleared hin with h0 | h0
            · exact clearedInv_merge h0 s
            · exact absurd h0 hcl
    | clearModel =>
      simp only [applyCommand]
      exact clearedInv_clear h
    | getModel =>
      simp only [applyCommand]
      exact h

/-- Every reachable override state satisfies the cleared-flag invariant. -/
theorem reachable_clearedInv {s : Option Overrides} (h : Reachable s) :
    ClearedInv s := by
  induction h with
  | init => exact clearedInv_none
  | httpStep env s clients method url body repoConfigured saveOutcome _ ih =>
    exact clearedInv_handleHttpRequest env s clients method url body
      repoConfigured saveOutcome ih
  | wsStep env s clients senderId msg _ ih =>
    exact clearedInv_handleWsMessage env s clients senderId msg ih

/-- The canonical cleared state is reachable (HTTP DELETE from the initial
state). -/
theorem reachable_canonical : Reachable (some canonicalCleared) := by
  have h := Reachable.httpStep defaultEnv none [] "DELETE" (some WS_PATH)
    none false (.ok ()) Reachable.init
  have e : (handleHttpRequest defaultEnv none [] "DELETE" (some WS_PATH)
      none false (.ok ())).state = some canonicalCleared := rfl
  rw [e] at h
  exact h

/-- The state holding only `visible := false` is reachable (HTTP POST of
the payload `(visible: false)` from the initial state). -/
theorem reachable_visFalse : Reachable (some { visible := some false }) := by
  have h := Reachable.httpStep defaultEnv none [] "POST" (some WS_PATH)
    (some (.obj { visible := .vBool false })) false (.ok ()) Reachable.init
  have e : (handleHttpRequest defaultEnv none [] "POST" (some WS_PATH)
      (some (.obj { visible := .vBool false })) false (.ok ())).state
      = some { visible := some false } := rfl
  rw [e] at h
  exact h

/-- Claim C10: in every reachable override state the `cleared` field is
absent unless the state is exactly the canonical cleared shape; moreover
normalization never outputs `cleared: false`, and a merge whose partial
does not set `cleared` deletes any prior flag. -/
theorem C10_cleared_only_on_canonical :
    (∀ s, Reachable s → ∀ o, s = some o → o.cleared ≠ none →
      o = canonicalCleared) ∧
    (∀ (env : JsEnv) (input : JsInput) (ov : Overrides),
      normalizeOverrides env input = .ok ov → ov.cleared ≠ some false) ∧
    (∀ (s : Option Overrides) (ov : Overrides), ov.cleared = none →
      (applyMerge s ov).cleared = none) := by
  refine ⟨fun s h => reachable_clearedInv h, fun env input ov h => ?_, ?_⟩
  · rcases normalizeOverrides_cleared h with h0 | h0 <;> simp [h0]
  · exact fun s ov h => applyMerge_cleared_none h s

/-- Witness for C10: the canonical cleared state is reachable and carries
the flag; normalizing `(cleared: true)` yields no `false` flag; a merge of
`(modelPath m)` into the empty state carries no `cleared` field. -/
theorem C10_cleared_only_on_canonical_witness :
    canonicalCleared = canonicalCleared ∧
    ({ cleared := some true : Overrides }.cleared ≠ some false) ∧
    (applyMerge none { modelPath := some "m" }).cleared = none :=
  ⟨C10_cleared_only_on_canonical.1 (some canonicalCleared) reachable_canonical
      canonicalCleared rfl (by decide),
   C10_cleared_only_on_canonical.2.1 defaultEnv (.obj { cleared := .vBool true })
      { cleared := some true } rfl,
   C10_cleared_only_on_canonical.2.2 none { modelPath := some "m" } rfl⟩

/-- Counterexample to claim C2 as stated: the override
`(visible: false)` (and nothing else) is client-visible — it is reachable
by POSTing the payload `(visible: false)` to the base path — and satisfies
`isClearedOverride`, yet it is neither `null` nor the canonical shape
`(cleared: true, visible: false)`. -/
theorem C2_counterexample :
    Reachable (some { visible := some false : Overrides }) ∧
    isClearedOverride (some { visible := some false : Overrides }) = true ∧
    some { visible := some false : Overrides } ≠ (none : Option Overrides) ∧
    some { visible := some false : Overrides } ≠ some canonicalCleared :=
  ⟨reachable_visFalse, by decide, by decide, by decide⟩

/-- Claim C2 (amended): for every client-visible override value, if its
`cleared` flag is set to `true` then the value is exactly the canonical
shape `(cleared: true, visible: false)` with no other fields.  (The
original claim's broader `isClearedOverride` antecedent fails: see the
counterexample.) -/
theorem C2_cleared_implies_canonical (s : Option Overrides)
    (h : Reachable s) (o : Overrides) (ho : s = some o)
    (hcl : o.cleared = some true) : o = canonicalCleared :=
  reachable_clearedInv h o ho (by simp [hcl])

/-- Witness for the amended C2 at the reachable canonical state. -/
theorem C2_cleared_implies_canonical_witness :
    canonicalCleared = canonicalCleared :=
  C2_cleared_implies_canonical (some canonicalCleared) reachable_canonical
    canonicalCleared rfl rfl

/-- Claim C5: `clearOverride` is idempotent — on an already-cleared state it
returns the state unchanged and does not broadcast; from a non-cleared
state the first clear installs the canonical shape and broadcasts, and a
second clear changes nothing and does not broadcast (one broadcast in
total). -/
theorem C5_clear_idempotent (s : Option Overrides) :
    (isClearedOverride s = true → clearOverride s = (s, false)) ∧
    (isClearedOverride s = false →
      (clearOverride s).1 = some canonicalCleared ∧
      (clearOverride s).2 = true ∧
      clearOverride (clearOverride s).1 = (some canonicalCleared, false)) := by
  constructor
  · intro h
    simp [clearOverride, h]
  · intro h
    refine ⟨by simp [clearOverride, h], by simp [clearOverride, h], ?_⟩
    have e : (clearOverride s).1 = some canonicalCleared := by
      simp [clearOverride, h]
    rw [e]
    simp [clearOverride, isClearedOverride, canonicalCleared]

/-- Witness for C5: from the already-cleared canonical state a clear is a
broadcast-free no-op; from the initial `null` state two consecutive clears
yield the canonical shape with exactly one broadcast. -/
theorem C5_clear_idempotent_witness :
    clearOverride (some canonicalCleared) = (some canonicalCleared, false) ∧
    ((clearOverride none).1 = some canonicalCleared ∧
      (clearOverride none).2 = true ∧
      clearOverride (clearOverride none).1 = (some canonicalCleared, false)) :=
  ⟨(C5_clear_idempotent (some canonicalCleared)).1 (by decide),
   (C5_clear_idempotent none).2 (by decide)⟩

/-- Counterexample to claim C4 as stated: from the reachable state
`(visible: false)` — which `isClearedOverride` accepts — a clear request
`(modelPath: "clear")` is a no-op, so the resulting override is NOT the
canonical `(cleared: true, visible: false)` state. -/
theorem C4_counterexample :
    Reachable (some { visible := some false : Overrides }) ∧
    (handleOverridePost defaultEnv (some { visible := some false }) []
        (some (.obj { modelPath := .vStr "clear" }))).state
      = some { visible := some false : Overrides } ∧
    (handleOverridePost defaultEnv (some { visible := some false }) []
        (some (.obj { modelPath := .vStr "clear" }))).state
      ≠ some canonicalCleared :=
  ⟨reachable_visFalse, by decide, by decide⟩

/-- Claim C4 (amended): an update whose validated partial has
`modelPath == "clear"`, an update whose partial has `cleared == true`, and
the dedicated clear operation all perform the same `clearOverride` call
and produce identical results, discarding any other fields of the partial;
whenever the prior state does not already satisfy `isClearedOverride`, the
common result is the canonical `(cleared: true, visible: false)` (when it
does, the prior state is kept unchanged). -/
theorem C4_clear_shorthand_equivalence :
    (∀ (s : Option Overrides) (clients : List Client) (senderId : ℕ)
      (p : Overrides), p.modelPath = some "clear" ∨ p.cleared = some true →
      applyCommand s clients senderId (.setModel p)
        = .ok ((clearOverride s).1, clearEvents clients s)) ∧
    (∀ (env : JsEnv) (s : Option Overrides) (clients : List Client)
      (input : JsInput) (ov : Overrides),
      normalizeOverrides env input = .ok ov →
      ov.modelPath = some "clear" ∨ ov.cleared = some true →
      handleOverridePost env s clients (some input)
        = { reply := { status := 204 }, state := (clearOverride s).1,
            events := clearEvents clients s }) ∧
    (∀ (env : JsEnv) (s : Option Overrides) (clients : List Client)
      (body : Option JsInput),
      handleOverrideRequest env s clients "DELETE" body
        = { reply := { status := 204 }, state := (clearOverride s).1,
            events := clearEvents clients s }) ∧
    (∀ (s : Option Overrides) (clients : List Client) (senderId : ℕ),
      applyCommand s clients senderId .clearModel
        = .ok ((clearOverride s).1, clearEvents clients s)) ∧
    (∀ s : Option Overrides, isClearedOverride s = false →
      (clearOverride s).1 = some canonicalCleared) := by
  refine ⟨?_, ?_, ?_, ?_, ?_⟩
  · intro s clients senderId p hp
    rcases hp with h | h
    · have he : isEmptyOverrides p = false := by
        simp [isEmptyOverrides, h]
      simp [applyCommand, he, h]
    · have he : isEmptyOverrides p = false := by
        simp [isEmptyOverrides, h]
      by_cases hmp : p.modelPath = some "clear"
      · simp [applyCommand, he, hmp]
      · simp [applyCommand, he, hmp, h]
  · intro env s clients input ov hn hp
    simp only [handleOverridePost, hn]
    rw [if_pos hp]
  · intro env s clients body
    unfold handleOverrideRequest
    rw [if_neg (by decide : ¬(("DELETE" : String) = "GET")), if_pos rfl]
  · intro s clients senderId
    rfl
  · intro s h
    simp [clearOverride, h]

/-- Witness for the amended C4: from the initial state, a `set-model` with
`(modelPath: "clear", scale: 2)` discards the scale and clears; a POST of
`(cleared: true)` clears; both land on the canonical shape, as does a bare
clear. -/
theorem C4_clear_shorthand_equivalence_witness :
    applyCommand none [] 7
        (.setModel { modelPath := some "clear", scale := some (.fin 2) })
      = .ok (some canonicalCleared, []) ∧
    handleOverridePost defaultEnv none [] (some (.obj { cleared := .vBool true }))
      = { reply := { status := 204 }, state := some canonicalCleared,
          events := [] } ∧
    (clearOverride none).1 = some canonicalCleared :=
  ⟨C4_clear_shorthand_equivalence.1 none [] 7
      { modelPath := some "clear", scale := some (.fin 2) } (Or.inl rfl),
   C4_clear_shorthand_equivalence.2.1 defaultEnv none []
      (.obj { cleared := .vBool true }) { cleared := some true } rfl
      (Or.inr rfl),
   C4_clear_shorthand_equivalence.2.2.2.2 none rfl⟩

/-! ### Broadcast fan-out -/

theorem broadcastUpdate_cons (x : Client) (xs : List Client)
    (s : Option Overrides) :
    broadcastUpdate (x :: xs) s
      = if x.readyStateOpen then
          (x.id, Msg.modelUpdate s) :: broadcastUpdate xs s
        else broadcastUpdate xs s := by
  simp only [broadcastUpdate, List.filter_cons]
  split <;> simp_all

/-- No messages target an id that belongs to no client. -/
theorem broadcast_filter_not_mem {clients : List Client} {i : ℕ}
    (h : i ∉ clients.map Client.id) (s : Option Overrides) :
    (broadcastUpdate clients s).filter (fun e => e.1 == i) = [] := by
  induction clients with
  | nil => rfl
  | cons x xs ih =>
    simp only [List.map_cons, List.mem_cons] at h
    push_neg at h
    rw [broadcastUpdate_cons]
    split
    · rw [List.filter_cons]
      have hne : ((x.id, Msg.modelUpdate s).1 == i) = false := by
        simp [Ne.symm h.1]
      rw [if_neg (by simp [hne])]
      exact ih h.2
    · exact ih h.2

/-- With distinct client ids, each open client receives exactly one
message, carrying the broadcast state. -/
theorem broadcast_filter_eq {clients : List Client} {c : Client}
    (hmem : c ∈ clients) (hopen : c.readyStateOpen = true)
    (hnodup : (clients.map Client.id).Nodup) (s : Option Overrides) :
    (broadcastUpdate clients s).filter (fun e => e.1 == c.id)
      = [(c.id, Msg.modelUpdate s)] := by
  induction clients with
  | nil => cases hmem
  | cons x xs ih =>
    rw [List.map_cons, List.nodup_cons] at hnodup
    rcases List.mem_cons.1 hmem with rfl | hmem'
    · rw [broadcastUpdate_cons, if_pos hopen, List.filter_cons,
        if_pos (by simp)]
      rw [broadcast_filter_not_mem hnodup.1 s]
    · have hxc : x.id ≠ c.id := by
        intro hid
        exact hnodup.1 (hid ▸ List.mem_map_of_mem Client.id hmem')
      rw [broadcastUpdate_cons]
      split
      · rw [List.filter_cons, if_neg (by simp [hxc])]
        exact ih hmem' hnodup.2
      · exact ih hmem' hnodup.2

/-- Claim C3: every accepted `set-model` / `clear-model` state change — over
the WebSocket channel or HTTP POST / DELETE — emits the broadcast of the
new override state; the broadcast delivers exactly one `model-update` to
every currently open connection (the originator included, being one of the
connected clients), with the identical payload for all of them. -/
theorem C3_broadcast_fanout :
    (∀ (clients : List Client) (s : Option Overrides),
      broadcastUpdate clients s
        = (clients.filter (fun c => c.readyStateOpen)).map
            (fun c => (c.id, Msg.modelUpdate s))) ∧
    (∀ (clients : List Client) (s : Option Overrides) (c : Client),
      c ∈ clients → c.readyStateOpen = true →
      (clients.map Client.id).Nodup →
      (broadcastUpdate clients s).filter (fun e => e.1 == c.id)
        = [(c.id, Msg.modelUpdate s)]) ∧
    (∀ (s : Option Overrides) (clients : List Client) (senderId : ℕ)
      (p : Overrides), isEmptyOverrides p = false →
      p.modelPath ≠ some "clear" → p.cleared ≠ some true →
      applyCommand s clients senderId (.setModel p)
        = .ok (some (applyMerge s p),
            broadcastUpdate clients (some (applyMerge s p)))) ∧
    (∀ (s : Option Overrides) (clients : List Client) (senderId : ℕ),
      isClearedOverride s = false →
      applyCommand s clients senderId .clearModel
        = .ok (some canonicalCleared,
            broadcastUpdate clients (some canonicalCleared))) ∧
    (∀ (env : JsEnv) (s : Option Overrides) (clients : List Client)
      (input : JsInput) (ov : Overrides),
      normalizeOverrides env input = .ok ov →
      ¬(ov.modelPath = some "clear" ∨ ov.cleared = some true) →
      isEmptyOverrides ov = false →
      (handleOverridePost env s clients (some input)).events
        = broadcastUpdate clients (some (applyMerge s ov))) ∧
    (∀ (env : JsEnv) (s : Option Overrides) (clients : List Client)
      (body : Option JsInput), isClearedOverride s = false →
      (handleOverrideRequest env s clients "DELETE" body).events
        = broadcastUpdate clients (some canonicalCleared)) := by
  refine ⟨fun _ _ => rfl, fun clients s c h1 h2 h3 => broadcast_filter_eq h1 h2 h3 s,
    ?_, ?_, ?_, ?_⟩
  · intro s clients senderId p hne hmp hcl
    simp [applyCommand, hne, hmp, hcl]
  · intro s clients senderId h
    simp [applyCommand, clearEvents, clearOverride, h]
  · intro env s clients input ov hn hc hemp
    simp only [handleOverridePost, hn]
    rw [if_neg hc, if_neg (by simp [hemp])]
  · intro env s clients body h
    unfold handleOverrideRequest
    rw [if_neg (by decide : ¬(("DELETE" : String) = "GET")), if_pos rfl]
    simp [clearEvents, clearOverride, h]

/-- Witness for C3: three open clients 1, 2, 3; a `set-model` of
`(modelPath: "m")` from client 1 broadcasts one identical `model-update`
to each of the three clients, client 2 (a non-originator) receiving it
exactly once. -/
theorem C3_broadcast_fanout_witness :
    applyCommand none [⟨1, true⟩, ⟨2, true⟩, ⟨3, true⟩] 1
        (.setModel { modelPath := some "m" })
      = .ok (some { modelPath := some "m", visible := some true },
          [(1, Msg.modelUpdate (some { modelPath := some "m", visible := some true })),
           (2, Msg.modelUpdate (some { modelPath := some "m", visible := some true })),
           (3, Msg.modelUpdate (some { modelPath := some "m", visible := some true }))]) ∧
    (broadcastUpdate [⟨1, true⟩, ⟨2, true⟩, ⟨3, true⟩]
        (some { modelPath := some "m", visible := some true })).filter
        (fun e => e.1 == 2)
      = [(2, Msg.modelUpdate (some { modelPath := some "m", visible := some true }))] :=
  ⟨C3_broadcast_fanout.2.2.1 none [⟨1, true⟩, ⟨2, true⟩, ⟨3, true⟩] 1
      { modelPath := some "m" } (by decide) (by decide) (by decide),
   C3_broadcast_fanout.2.1 [⟨1, true⟩, ⟨2, true⟩, ⟨3, true⟩]
      (some { modelPath := some "m", visible := some true }) ⟨2, true⟩
      (by decide) rfl (by decide)⟩

/-- Claim C8: an update whose normalized payload has zero fields and is not
a clear request is rejected — HTTP 400, or a WebSocket `error` message to
the sender — leaving the override unchanged and broadcasting nothing,
while a payload of only `modelPath: "clear"` or only `cleared: true` is
accepted as a clear. -/
theorem C8_empty_update_rejected :
    (∀ (env : JsEnv) (s : Option Overrides) (clients : List Client)
      (input : JsInput) (ov : Overrides),
      normalizeOverrides env input = .ok ov → isEmptyOverrides ov = true →
      handleOverridePost env s clients (some input)
        = { reply := jsonError 400 "At least one override field must be provided",
            state := s, events := [] }) ∧
    (∀ (env : JsEnv) (s : Option Overrides) (clients : List Client)
      (senderId : ℕ) (input : JsInput) (ov : Overrides),
      normalizeOverrides env input = .ok ov → isEmptyOverrides ov = true →
      handleWsMessage env s clients senderId (.objMsg (.vStr "set-model") input)
        = (s, [(senderId, .errorMsg "set-model requires at least one field")])) ∧
    (∀ env : JsEnv,
      normalizeOverrides env (.obj { modelPath := .vStr "clear" })
        = .ok { modelPath := some "clear" }) ∧
    (∀ (env : JsEnv) (s : Option Overrides) (clients : List Client),
      handleOverridePost env s clients (some (.obj { modelPath := .vStr "clear" }))
        = { reply := { status := 204 }, state := (clearOverride s).1,
            events := clearEvents clients s }) ∧
    (∀ env : JsEnv,
      normalizeOverrides env (.obj { cleared := .vBool true })
        = .ok { cleared := some true }) ∧
    (∀ (env : JsEnv) (s : Option Overrides) (clients : List Client),
      handleOverridePost env s clients (some (.obj { cleared := .vBool true }))
        = { reply := { status := 204 }, state := (clearOverride s).1,
            events := clearEvents clients s }) := by
  refine ⟨?_, ?_, fun env => rfl, ?_, fun env => rfl, ?_⟩
  · intro env s clients input ov hn hemp
    have h6 := hemp
    simp only [isEmptyOverrides, Bool.and_eq_true,
      Option.isNone_iff_eq_none] at h6
    obtain ⟨⟨⟨⟨⟨h1, _⟩, _⟩, _⟩, _⟩, hcl⟩ := h6
    simp only [handleOverridePost, hn]
    rw [if_neg (by simp [h1, hcl]), if_pos hemp]
    rfl
  · intro env s clients senderId input ov hn hemp
    have hp : parseCommand env (.objMsg (.vStr "set-model") input)
        = .ok (.setModel ov) := by
      simp [parseCommand, hn, Bind.bind, Except.bind]
    simp [handleWsMessage, hp, applyCommand, hemp]
  · intro env s clients
    have hn : normalizeOverrides env (.obj { modelPath := .vStr "clear" })
        = .ok { modelPath := some "clear" } := rfl
    simp only [handleOverridePost, hn]
    simp
  · intro env s clients
    have hn : normalizeOverrides env (.obj { cleared := .vBool true })
        = .ok { cleared := some true } := rfl
    simp only [handleOverridePost, hn]
    simp

/-- Witness for C8: normalizing the empty object and updating is rejected
with 400 over HTTP and with an `error` message over the channel, while the
bare clear sentinel is accepted as a clear. -/
theorem C8_empty_update_rejected_witness :
    handleOverridePost defaultEnv none [] (some (.obj {}))
      = { reply := jsonError 400 "At least one override field must be provided",
          state := none, events := [] } ∧
    handleWsMessage defaultEnv none [⟨1, true⟩] 1
        (.objMsg (.vStr "set-model") (.obj {}))
      = (none, [(1, .errorMsg "set-model requires at least one field")]) ∧
    handleOverridePost defaultEnv none [] (some (.obj { modelPath := .vStr "clear" }))
      = { reply := { status := 204 }, state := some canonicalCleared,
          events := [] } :=
  ⟨C8_empty_update_rejected.1 defaultEnv none [] (.obj {}) {} rfl rfl,
   C8_empty_update_rejected.2.1 defaultEnv none [⟨1, true⟩] 1 (.obj {}) {}
      rfl rfl,
   C8_empty_update_rejected.2.2.2.1 defaultEnv none []⟩

/-- Claim C7: a POST to the slider path whose body passes slider-submission
validation is answered 503 with an error body when no repository is
configured — not 500 and not a silent success — with no persistence
attempt; a validation failure on the same route is answered 400 even with
no repository configured. -/
theorem C7_storage_unavailable_503 :
    (∀ (env : JsEnv) (s : Option Overrides) (clients : List Client)
      (u : String) (input : JsInput) (sub : SliderSubmission)
      (saveOutcome : Except String Unit),
      env.pathnameOf u = SLIDER_PATH →
      normalizeSliderSubmission env input = .ok sub →
      handleHttpRequest env s clients "POST" (some u) (some input) false
          saveOutcome
        = { reply := jsonError 503 "Slider submission storage not configured",
            state := s, events := [], didSave := false }) ∧
    (∀ (env : JsEnv) (s : Option Overrides) (clients : List Client)
      (u : String) (input : JsInput) (e : String)
      (saveOutcome : Except String Unit),
      env.pathnameOf u = SLIDER_PATH →
      normalizeSliderSubmission env input = .error e →
      handleHttpRequest env s clients "POST" (some u) (some input) false
          saveOutcome
        = { reply := { status := 400, body := some (.errorBody e) },
            state := s, events := [], didSave := false }) := by
  constructor
  · intro env s clients u input sub saveOutcome hpath hn
    simp only [handleHttpRequest]
    rw [if_neg (by decide : ¬(("POST" : String) = "OPTIONS")), hpath,
      if_neg (by decide : ¬(SLIDER_PATH = WS_PATH)), if_pos rfl]
    simp only [handleSliderSubmission, hn]
    rw [if_neg (by decide : ¬(("POST" : String) ≠ "POST"))]
    simp [jsonError]
  · intro env s clients u input e saveOutcome hpath hn
    simp only [handleHttpRequest]
    rw [if_neg (by decide : ¬(("POST" : String) = "OPTIONS")), hpath,
      if_neg (by decide : ¬(SLIDER_PATH = WS_PATH)), if_pos rfl]
    simp only [handleSliderSubmission, hn]
    rw [if_neg (by decide : ¬(("POST" : String) ≠ "POST"))]

/-- Witness for C7: a valid submission with no repository gets 503 and no
save attempt; an invalid one (missing sessionId) gets 400. -/
theorem C7_storage_unavailable_503_witness :
    handleHttpRequest defaultEnv none [] "POST"
        (some "/replacement-model/slider-values")
        (some (.obj validSliderPayload)) false (.ok ())
      = { reply := jsonError 503 "Slider submission storage not configured",
          state := none, events := [], didSave := false } ∧
    handleHttpRequest defaultEnv none [] "POST"
        (some "/replacement-model/slider-values") (some (.obj {})) false (.ok ())
      = { reply := jsonError 400 "sessionId must be a non-empty string",
          state := none, events := [], didSave := false } :=
  ⟨C7_storage_unavailable_503.1 defaultEnv none []
      "/replacement-model/slider-values"
      (.obj validSliderPayload)
      { sessionId := "s", questionId := "q", value := .fin 1 } (.ok ()) rfl rfl,
   C7_storage_unavailable_503.2 defaultEnv none []
      "/replacement-model/slider-values" (.obj {})
      "sessionId must be a non-empty string" (.ok ()) rfl rfl⟩

/-- Counterexample to claim C9 as stated: an OPTIONS request to an unknown
path is answered with the 204 CORS preflight response, not 404 — so "the
server responds 404 regardless of the request method" fails for OPTIONS. -/
theorem C9_counterexample :
    defaultEnv.pathnameOf "/nowhere" ≠ WS_PATH ∧
    defaultEnv.pathnameOf "/nowhere" ≠ SLIDER_PATH ∧
    (handleHttpRequest defaultEnv none [] "OPTIONS" (some "/nowhere") none
        false (.ok ())).reply.status = 204 ∧
    (handleHttpRequest defaultEnv none [] "OPTIONS" (some "/nowhere") none
        false (.ok ())).reply.status ≠ 404 :=
  ⟨by decide, by decide, rfl, by decide⟩

/-- Claim C9 (amended): every HTTP request whose method is not OPTIONS and
whose parsed pathname is neither the base path nor the slider path is
answered 404 (OPTIONS requests always get the 204 preflight response
instead, regardless of path). -/
theorem C9_unknown_path_404 (env : JsEnv) (s : Option Overrides)
    (clients : List Client) (method : String) (url : Option String)
    (body : Option JsInput) (repoConfigured : Bool)
    (saveOutcome : Except String Unit) (hm : method ≠ "OPTIONS")
    (hp : ∀ u, url = some u →
      env.pathnameOf u ≠ WS_PATH ∧ env.pathnameOf u ≠ SLIDER_PATH) :
    (handleHttpRequest env s clients method url body repoConfigured
        saveOutcome).reply
      = { status := 404, body := some (.errorBody "Not found") } := by
  cases url with
  | none => rfl
  | some u =>
    simp only [handleHttpRequest]
    rw [if_neg hm, if_neg (hp u rfl).1, if_neg (hp u rfl).2]

/-- Witness for the amended C9: a GET of an unknown path is answered 404. -/
theorem C9_unknown_path_404_witness :
    (handleHttpRequest defaultEnv none [] "GET" (some "/nowhere") none false
        (.ok ())).reply
      = { status := 404, body := some (.errorBody "Not found") } :=
  C9_unknown_path_404 defaultEnv none [] "GET" (some "/nowhere") none false
    (.ok ()) (by decide)
    (fun u hu => by
      cases hu
      exact ⟨by decide, by decide⟩)

/-! ### Startup retry -/

/-- Splitting the first delay off a linearly increasing delay schedule. -/
theorem delays_shift (b a n : ℕ) :
    (List.range (n + 1)).map (fun j => b * (a + j))
      = b * a :: (List.range n).map (fun j => b * (a + 1 + j)) := by
  rw [List.range_succ_eq_map, List.map_cons, List.map_map]
  have hf : ((fun j => b * (a + j)) ∘ Nat.succ) = fun j => b * (a + 1 + j) := by
    funext j
    simp only [Function.comp_apply, Nat.succ_eq_add_one]
    ring
  rw [hf]
  simp

theorem initFrom_success {α : Type} (ctor : ℕ → Except String α)
    (baseDelayMs : ℕ) (repo : α) (k : ℕ) :
    ∀ (remaining attempt : ℕ), attempt ≤ k → k < attempt + remaining →
    (∀ i, attempt ≤ i → i < k → ∃ e, ctor i = .error e) →
    ctor k = .ok repo →
    initFrom ctor baseDelayMs attempt remaining
      = (some repo,
          (List.range (k - attempt)).map (fun j => baseDelayMs * (attempt + j)))
  | 0, attempt => by
    intro h1 h2 hfail hok
    omega
  | remaining + 1, attempt => by
    intro h1 h2 hfail hok
    by_cases ha : attempt = k
    · subst ha
      simp [initFrom, hok]
    · have hlt : attempt < k := lt_of_le_of_ne h1 ha
      obtain ⟨e, he⟩ := hfail attempt le_rfl hlt
      have hr : ¬(remaining = 0) := by omega
      simp only [initFrom, he]
      rw [if_neg hr]
      rw [initFrom_success ctor baseDelayMs repo k remaining (attempt + 1)
        (by omega) (by omega) (fun i hi1 hi2 => hfail i (by omega) hi2) hok]
      have hka : k - attempt = (k - (attempt + 1)) + 1 := by omega
      conv_rhs => rw [hka]
      rw [delays_shift]

theorem initFrom_allFail {α : Type} (ctor : ℕ → Except String α)
    (baseDelayMs : ℕ) (hfail : ∀ i, ∃ e, ctor i = .error e) :
    ∀ (remaining attempt : ℕ),
    initFrom ctor baseDelayMs attempt remaining
      = (none,
          (List.range (remaining - 1)).map (fun j => baseDelayMs * (attempt + j)))
  | 0, attempt => by simp [initFrom]
  | remaining + 1, attempt => by
    obtain ⟨e, he⟩ := hfail attempt
    simp only [initFrom, he]
    by_cases hr : remaining = 0
    · subst hr
      simp
    · rw [if_neg hr,
        initFrom_allFail ctor baseDelayMs hfail remaining (attempt + 1)]
      have hka : remaining = (remaining - 1) + 1 := by omega
      rw [Nat.add_sub_cancel]
      conv_rhs => rw [hka]
      rw [delays_shift]

/-- Claim C6: startup attempts repository construction up to `maxAttempts`
times (default 5), waiting `baseDelay * attemptNumber` (default base
1000 ms) between consecutive attempts; when attempts `1..k-1` fail and
attempt `k ≤ maxAttempts` succeeds, the k-th repository is used; when
every attempt fails, the loop returns with the repository absent instead
of raising. -/
theorem C6_startup_retry :
    (∀ (α : Type) (ctor : ℕ → Except String α)
      (maxAttempts baseDelayMs k : ℕ) (repo : α),
      1 ≤ k → k ≤ maxAttempts →
      (∀ i, 1 ≤ i → i < k → ∃ e, ctor i = .error e) →
      ctor k = .ok repo →
      initializeSliderRepository ctor maxAttempts baseDelayMs
        = (some repo,
            (List.range (k - 1)).map (fun j => baseDelayMs * (1 + j)))) ∧
    (∀ (α : Type) (ctor : ℕ → Except String α) (maxAttempts baseDelayMs : ℕ),
      (∀ i, ∃ e, ctor i = .error e) →
      initializeSliderRepository ctor maxAttempts baseDelayMs
        = (none,
            (List.range (maxAttempts - 1)).map (fun j => baseDelayMs * (1 + j)))) ∧
    DEFAULT_RETRY_ATTEMPTS = 5 ∧ DEFAULT_RETRY_DELAY_MS = 1000 := by
  refine ⟨?_, ?_, rfl, rfl⟩
  · intro α ctor maxAttempts baseDelayMs k repo h1 h2 hfail hok
    exact initFrom_success ctor baseDelayMs repo k maxAttempts 1 h1
      (by omega) hfail hok
  · intro α ctor maxAttempts baseDelayMs hfail
    exact initFrom_allFail ctor baseDelayMs hfail maxAttempts 1

/-- Witness for C6: a constructor failing on attempts 1 and 2 and
succeeding on attempt 3 yields, with `maxAttempts = 3`, the third
attempt's repository after delays 1000 ms and 2000 ms; an always-failing
constructor with `maxAttempts = 2` yields no repository after one delay. -/
theorem C6_startup_retry_witness :
    initializeSliderRepository
        (fun i => if i < 3 then (.error "boom" : Except String ℕ) else .ok i)
        3 1000
      = (some 3, [1000, 2000]) ∧
    initializeSliderRepository (fun _ => (.error "boom" : Except String ℕ))
        2 1000
      = (none, [1000]) := by
  constructor
  · have h := C6_startup_retry.1 ℕ
      (fun i => if i < 3 then (.error "boom" : Except String ℕ) else .ok i)
      3 1000 3 3 (by decide) (by decide)
      (fun i h1 h2 => ⟨"boom", by simp [h2]⟩) (by simp)
    rw [h]
    decide
  · have h := C6_startup_retry.2.1 ℕ
      (fun _ => (.error "boom" : Except String ℕ)) 2 1000
      (fun i => ⟨"boom", rfl⟩)
    rw [h]
    decide

end ReplacementModel
